import Mathlib

/-!
Verification development for the mysql-mcp repository: an MCP server that
exposes read-only MySQL operations through an on-demand SSH tunnel
(source: src/index.ts and the DatabaseClient module).

The mutable process state (the sshTunnel handle, the lazily created
connection pool of the DatabaseClient, and the idle timer) is embedded as an
explicit record of three booleans, and every stateful function of the source
(openTunnel, closeTunnel, resetIdleTimer, ensureConnection, runQuery,
DatabaseClient.close, DatabaseClient.testConnection, the tool-call handler)
becomes a pure function threading that record.  The outcomes of the external
world (does createTunnel succeed, does a queryFn invocation resolve or
reject, does pool.end reject) are supplied as an explicit environment
record, one field per external event in program order.
-/

namespace MysqlMcp

/-- Decidable equality for Except values, needed to evaluate concrete
environments in witnesses. -/
instance instExceptDecEq {ε α : Type} [DecidableEq ε] [DecidableEq α] :
    DecidableEq (Except ε α) := fun x y =>
  match x, y with
  | Except.ok a, Except.ok b =>
    if h : a = b then isTrue (by rw [h])
    else isFalse (fun hh => h (Except.ok.inj hh))
  | Except.ok _, Except.error _ => isFalse (fun hh => Except.noConfusion hh)
  | Except.error _, Except.ok _ => isFalse (fun hh => Except.noConfusion hh)
  | Except.error e, Except.error f =>
    if h : e = f then isTrue (by rw [h])
    else isFalse (fun hh => h (Except.error.inj hh))

/-- A JavaScript error value as observed by the orchestrator: its code
property and its message property (an absent property is the empty
string). -/
structure Err where
  code : String
  msg : String
deriving DecidableEq

/-- Substring occurrence test on character lists, embedding
String.prototype.includes of the source. -/
def containsSub (pat : List Char) : List Char → Bool
  | [] => pat.isEmpty
  | c :: tl => pat.isPrefixOf (c :: tl) || containsSub pat tl

/-- Transient-connection test from the catch branch of runQuery:
code ECONNREFUSED, ECONNRESET or PROTOCOL_CONNECTION_LOST, or a message
containing the substring "Connection lost". -/
def isTransientErr (e : Err) : Bool :=
  e.code == "ECONNREFUSED" ||
  e.code == "ECONNRESET" ||
  e.code == "PROTOCOL_CONNECTION_LOST" ||
  containsSub "Connection lost".toList e.msg.toList

/-- Leading and trailing whitespace removal on a character list, embedding
String.prototype.trim of the source (restricted to ASCII whitespace). -/
def trimChars (l : List Char) : List Char :=
  ((l.dropWhile Char.isWhitespace).reverse.dropWhile Char.isWhitespace).reverse

/-- The characters of a SQL string after sql.trim().toLowerCase(), as in
isReadOnlyQuery of the source (ASCII lowering). -/
def trimLower (sql : String) : List Char :=
  (trimChars sql.toList).map Char.toLower

/-- Validation predicate of the source: the trimmed, lowercased query must
start with select, show or describe. -/
def isReadOnlyQuery (sql : String) : Bool :=
  ("select".toList.isPrefixOf (trimLower sql)) ||
  ("show".toList.isPrefixOf (trimLower sql)) ||
  ("describe".toList.isPrefixOf (trimLower sql))

/-- The leading keyword of a SQL string: the maximal run of non-whitespace
characters at the front of the trimmed, lowercased query.  This is the
notion the specification uses; the source itself only tests string
prefixes. -/
def leadingKeyword (sql : String) : List Char :=
  (trimLower sql).takeWhile (fun c => !c.isWhitespace)

/-- Character class [A-Za-z0-9_] of the sanitization regex. -/
def isWordChar (c : Char) : Bool :=
  ('a' ≤ c && c ≤ 'z') || ('A' ≤ c && c ≤ 'Z') || ('0' ≤ c && c ≤ '9') || c == '_'

/-- Character-by-character embedding of table.replace(/[^a-zA-Z0-9_]/g, ""):
every character outside the class is deleted, every character inside it is
kept in order. -/
def sanitizeChars : List Char → List Char
  | [] => []
  | c :: cs => if isWordChar c then c :: sanitizeChars cs else sanitizeChars cs

/-- sanitizeTableName of the source. -/
def sanitizeTableName (table : String) : String :=
  String.mk (sanitizeChars table.toList)

/-- The idle-timeout constant of the source: close the tunnel after five
minutes of inactivity. -/
def IDLE_TIMEOUT_MS : Nat := 5 * 60 * 1000

/-- The mutable process state: whether sshTunnel is non-null, whether the
DatabaseClient pool is non-null, and whether idleTimer is non-null. -/
structure St where
  tunnel : Bool
  pool : Bool
  idleTimer : Bool
deriving DecidableEq

/-- The error thrown by ensureConnection when openTunnel reports failure. -/
def tunnelErr : Err :=
  ⟨"", "Could not establish SSH tunnel to database server"⟩

/-- The rejection of pool.end(), should it occur. -/
def poolEndErr : Err := ⟨"", "pool.end failed"⟩

/-- Environment of one closeTunnel call: whether pool.end() resolves, and
whether server.close()/conn.end() run without throwing. -/
structure CloseEnv where
  poolEndOk : Bool
  tunnelCloseOk : Bool
deriving DecidableEq

/-- DatabaseClient.close of the source: a no-op without a pool; otherwise
await pool.end() and only then clear the pool reference, so a rejection of
pool.end() propagates and leaves the reference set. -/
def dbCloseM (endOk : Bool) (st : St) : Except Err Unit × St :=
  if st.pool then
    if endOk then (Except.ok (), ⟨st.tunnel, false, st.idleTimer⟩)
    else (Except.error poolEndErr, st)
  else (Except.ok (), st)

/-- The body of the try block in closeTunnel: server.close() and conn.end()
may throw. -/
def tunnelCloseBody (ok : Bool) : Except Err Unit :=
  if ok then Except.ok () else Except.error ⟨"", "teardown failed"⟩

/-- closeTunnel of the source: clear the idle timer, await
dbClient.close() (outside any try block, so its rejection propagates with
the handle untouched), then, if a tunnel handle exists, close listener and
SSH connection inside try/catch (the catch ignores the error) and clear
the handle unconditionally afterward. -/
def closeTunnelM (cenv : CloseEnv) (st : St) : Except Err Unit × St :=
  let st1 : St := ⟨st.tunnel, st.pool, false⟩
  match dbCloseM cenv.poolEndOk st1 with
  | (Except.error e, st2) => (Except.error e, st2)
  | (Except.ok _, st2) =>
    if st2.tunnel then
      match tunnelCloseBody cenv.tunnelCloseOk with
      | Except.ok _ => (Except.ok (), ⟨false, st2.pool, st2.idleTimer⟩)
      | Except.error _ => (Except.ok (), ⟨false, st2.pool, st2.idleTimer⟩)
    else (Except.ok (), st2)

/-- ensureConnection composed with openTunnel: if a handle exists return at
once with no attempt; otherwise one createTunnel attempt is made (counted
in the second component), installing the handle on success and leaving the
state unchanged on failure. -/
def ensureConn (openOk : Bool) (st : St) : Option St × Nat :=
  if st.tunnel then (some st, 0)
  else if openOk then (some ⟨true, st.pool, st.idleTimer⟩, 1)
  else (none, 1)

/-- Environment of one runQuery call, in program order: outcome of a first
createTunnel attempt (if one is needed), outcome of the first queryFn
invocation, behaviour of closeTunnel during recovery, outcome of a second
createTunnel attempt, outcome of the second queryFn invocation. -/
structure QEnv where
  openOk1 : Bool
  openOk2 : Bool
  poolEndOk : Bool
  tunnelCloseOk : Bool
  q1 : Except Err (List String)
  q2 : Except Err (List String)
deriving DecidableEq

/-- Observable outcome of one runQuery call: final state, returned or
thrown value, the SQL text of each queryFn invocation in order, and counts
of queryFn invocations, closeTunnel teardowns and createTunnel attempts. -/
structure RunOut where
  st : St
  out : Except Err (List String)
  sqls : List String
  queryCalls : Nat
  teardowns : Nat
  openAttempts : Nat
deriving DecidableEq

/-- runQuery of the source, with queryFn being dbClient.query sql (so each
invocation first ensures the pool exists, then executes): ensureConnection,
first attempt; on success reset the idle timer; on a transient-connection
error, closeTunnel, ensureConnection and retry exactly once, resetting the
idle timer on success; any other error is rethrown unchanged. -/
def runQueryM (sql : String) (env : QEnv) (st : St) : RunOut :=
  match ensureConn env.openOk1 st with
  | (none, a1) => ⟨st, Except.error tunnelErr, [], 0, 0, a1⟩
  | (some st1, a1) =>
    let st2 : St := ⟨st1.tunnel, true, st1.idleTimer⟩
    match env.q1 with
    | Except.ok v => ⟨⟨st2.tunnel, st2.pool, true⟩, Except.ok v, [sql], 1, 0, a1⟩
    | Except.error e =>
      if isTransientErr e then
        match closeTunnelM ⟨env.poolEndOk, env.tunnelCloseOk⟩ st2 with
        | (Except.error ce, st3) => ⟨st3, Except.error ce, [sql], 1, 1, a1⟩
        | (Except.ok _, st3) =>
          match ensureConn env.openOk2 st3 with
          | (none, a2) => ⟨st3, Except.error tunnelErr, [sql], 1, 1, a1 + a2⟩
          | (some st4, a2) =>
            let st5 : St := ⟨st4.tunnel, true, st4.idleTimer⟩
            match env.q2 with
            | Except.ok v =>
              ⟨⟨st5.tunnel, st5.pool, true⟩, Except.ok v, [sql, sql], 2, 1, a1 + a2⟩
            | Except.error e2 => ⟨st5, Except.error e2, [sql, sql], 2, 1, a1 + a2⟩
      else ⟨st2, Except.error e, [sql], 1, 0, a1⟩

/-- Result payload shapes of the tool-call handler: the JSON text of query
rows, the connection-health object of connect_db (its connected and tunnel
fields), or the textual error response produced by the outer catch. -/
inductive Payload where
  | rowsOut (rows : List String)
  | connOut (connected : Bool) (tunnel : String)
  | errText (text : String)
deriving DecidableEq

/-- The four named tools of the server plus an unrecognized name. -/
inductive ToolArgs where
  | readQuery (sql : String)
  | listTables
  | describeTable (table : String)
  | connectDb
  | unknown (toolName : String)
deriving DecidableEq

/-- The validation error thrown by the read_query branch. -/
def readOnlyErr : Err :=
  ⟨"", "Only SELECT, SHOW, and DESCRIBE queries are allowed"⟩

/-- The error thrown by the default branch of the handler switch. -/
def unknownToolErr (n : String) : Err := ⟨"", "Unknown tool: " ++ n⟩

/-- Observable outcome of one handler invocation before the outer catch:
thrown or returned value, final state, SQL texts issued to the session in
order, and the counters of RunOut. -/
structure HRes where
  out : Except Err Payload
  st : St
  sqls : List String
  queryCalls : Nat
  teardowns : Nat
  openAttempts : Nat
deriving DecidableEq

/-- Lift a runQuery outcome to a handler outcome, serializing rows. -/
def liftRun (r : RunOut) : HRes :=
  ⟨r.out.map Payload.rowsOut, r.st, r.sqls, r.queryCalls, r.teardowns, r.openAttempts⟩

/-- The connect_db branch of the handler: ensureConnection (whose failure
throws), then dbClient.testConnection — which issues SELECT 1 through
dbClient.query (ensuring the pool) and converts any failure to false —
then resetIdleTimer, and a payload reporting the health flag and whether
sshTunnel is set at response time. -/
def connectDbM (env : QEnv) (st : St) : HRes :=
  match ensureConn env.openOk1 st with
  | (none, a1) => ⟨Except.error tunnelErr, st, [], 0, 0, a1⟩
  | (some st1, a1) =>
    let st2 : St := ⟨st1.tunnel, true, st1.idleTimer⟩
    let isConnected : Bool :=
      match env.q1 with
      | Except.ok _ => true
      | Except.error _ => false
    let st3 : St := ⟨st2.tunnel, st2.pool, true⟩
    ⟨Except.ok (Payload.connOut isConnected (if st3.tunnel then "open" else "closed")),
      st3, ["SELECT 1"], 1, 0, a1⟩

/-- The switch of the CallToolRequestSchema handler, before the outer
catch: read_query validates and runs the given SQL, list_tables runs SHOW
TABLES, describe_table sanitizes the table name and runs DESCRIBE on it,
connect_db reports health, and any other name throws. -/
def handleToolInner (args : ToolArgs) (env : QEnv) (st : St) : HRes :=
  match args with
  | ToolArgs.readQuery sql =>
    if isReadOnlyQuery sql then liftRun (runQueryM sql env st)
    else ⟨Except.error readOnlyErr, st, [], 0, 0, 0⟩
  | ToolArgs.listTables => liftRun (runQueryM "SHOW TABLES" env st)
  | ToolArgs.describeTable table =>
    liftRun (runQueryM ("DESCRIBE " ++ sanitizeTableName table) env st)
  | ToolArgs.connectDb => connectDbM env st
  | ToolArgs.unknown n => ⟨Except.error (unknownToolErr n), st, [], 0, 0, 0⟩

/-- The full handler: the try/catch around the switch returns the inner
payload on success and converts any thrown error to a textual response. -/
def handleTool (args : ToolArgs) (env : QEnv) (st : St) : Payload × St :=
  let r := handleToolInner args env st
  match r.out with
  | Except.ok p => (p, r.st)
  | Except.error e => (Payload.errText ("Error: " ++ e.msg), r.st)

/-- The events that mutate the process state: a tool invocation, the idle
timer firing (possible only while the timer is set), the close or error
event of the SSH connection (whose registered handler only nulls
sshTunnel), and the SIGINT shutdown path (which awaits closeTunnel). -/
inductive Act where
  | tool (args : ToolArgs) (env : QEnv)
  | idleFire (cenv : CloseEnv)
  | sshClosed
  | shutdown (cenv : CloseEnv)
deriving DecidableEq

/-- One state transition per event. -/
def step (st : St) (a : Act) : St :=
  match a with
  | Act.tool args env => (handleToolInner args env st).st
  | Act.idleFire cenv => if st.idleTimer then (closeTunnelM cenv st).2 else st
  | Act.sshClosed => ⟨false, st.pool, st.idleTimer⟩
  | Act.shutdown cenv => (closeTunnelM cenv st).2

/-- Replay a list of events from a starting state. -/
def run (st : St) (acts : List Act) : St := acts.foldl step st

/-- The initial process state: no tunnel, no pool, no timer. -/
def st0 : St := ⟨false, false, false⟩

/-!
Interleaving model of openTunnel for concurrent callers.  openTunnel is an
async function whose critical section spans an await: it first checks
sshTunnel (returning at once if set), then awaits createTunnel — an attempt
against the SSH server and the local port — and only after that await
resolves does it assign sshTunnel.  Two concurrent callers are modelled
with a phase each; a scheduler string decides whose step runs next.
-/

/-- Phase of one caller inside openTunnel: before the sshTunnel check,
awaiting createTunnel, or finished. -/
inductive Phase where
  | preCheck
  | awaitingOpen
  | finished
deriving DecidableEq

/-- Shared state plus the phase of each of two callers; attempts counts
createTunnel invocations. -/
structure OpenSt where
  tunnel : Bool
  attempts : Nat
  p1 : Phase
  p2 : Phase
deriving DecidableEq

/-- Read the phase of the chosen caller. -/
def phaseOf (first : Bool) (s : OpenSt) : Phase :=
  if first then s.p1 else s.p2

/-- Replace the phase of the chosen caller. -/
def setPhase (first : Bool) (ph : Phase) (s : OpenSt) : OpenSt :=
  if first then ⟨s.tunnel, s.attempts, ph, s.p2⟩ else ⟨s.tunnel, s.attempts, s.p1, ph⟩

/-- Advance the chosen caller by one step of openTunnel: the check returns
at once when a handle exists; otherwise createTunnel is invoked (counted)
and, at the next step of this caller, its resolution installs the
handle. -/
def openStep (s : OpenSt) (first : Bool) : OpenSt :=
  match phaseOf first s with
  | Phase.preCheck =>
    if s.tunnel then setPhase first Phase.finished s
    else setPhase first Phase.awaitingOpen ⟨s.tunnel, s.attempts + 1, s.p1, s.p2⟩
  | Phase.awaitingOpen => setPhase first Phase.finished ⟨true, s.attempts, s.p1, s.p2⟩
  | Phase.finished => s

/-- Run a schedule (true selects the first caller) from the idle state. -/
def runSched (sched : List Bool) : OpenSt :=
  sched.foldl openStep ⟨false, 0, Phase.preCheck, Phase.preCheck⟩

/-! Concrete sample states and environments used by counterexamples and
witnesses. -/

/-- A state with tunnel, pool and idle timer all live. -/
def stReady : St := ⟨true, true, true⟩

/-- An environment where every external step succeeds. -/
def envAllOk : QEnv := ⟨true, true, true, true, Except.ok [], Except.ok []⟩

/-- A reset error of the transient-connection class. -/
def transientResetErr : Err := ⟨"ECONNRESET", "read ECONNRESET"⟩

/-- A non-transient query error. -/
def syntaxErr : Err := ⟨"ER_PARSE_ERROR", "You have an error in your SQL syntax"⟩

/-- Environment whose first query attempt fails transiently and whose
retry succeeds. -/
def envTransientThenOk : QEnv :=
  ⟨true, true, true, true, Except.error transientResetErr, Except.ok ["row1"]⟩

/-- Environment whose two query attempts both fail transiently. -/
def envTransientTwice : QEnv :=
  ⟨true, true, true, true, Except.error transientResetErr, Except.error transientResetErr⟩

/-- Environment whose first query attempt fails non-transiently. -/
def envSyntaxErr : QEnv :=
  ⟨true, true, true, true, Except.error syntaxErr, Except.ok []⟩

/-- Environment where the tunnel opens but the SELECT 1 health query is
rejected by the database. -/
def envSelect1Fails : QEnv :=
  ⟨true, true, true, true, Except.error ⟨"ER_ACCESS_DENIED", "Access denied"⟩, Except.ok []⟩

/-!
Theorems.
-/

/-- Every character surviving sanitizeChars is in the class, in order:
the function is the filter on the word-character class. -/
theorem sanitizeChars_eq_filter (l : List Char) :
    sanitizeChars l = l.filter isWordChar := by
  induction l with
  | nil => rfl
  | cons c cs ih =>
    by_cases h : isWordChar c <;> simp [sanitizeChars, List.filter_cons, h, ih]

/-- Sanitizing twice equals sanitizing once, character-list level. -/
theorem sanitizeChars_idem (l : List Char) :
    sanitizeChars (sanitizeChars l) = sanitizeChars l := by
  induction l with
  | nil => rfl
  | cons c cs ih =>
    by_cases h : isWordChar c <;> simp [sanitizeChars, h, ih]

/-- When a tunnel handle exists, ensureConnection is a no-op. -/
theorem ensureConn_tunnel (o : Bool) (st : St) (h : st.tunnel = true) :
    ensureConn o st = (some st, 0) := by
  simp [ensureConn, h]

/-- Without a handle, a successful createTunnel installs one, counting one
attempt. -/
theorem ensureConn_open (o : Bool) (st : St) (h : st.tunnel = false)
    (ho : o = true) :
    ensureConn o st = (some ⟨true, st.pool, st.idleTimer⟩, 1) := by
  simp [ensureConn, h, ho]

/-- Without a handle, a failed createTunnel leaves the state unchanged,
counting one attempt. -/
theorem ensureConn_fail (o : Bool) (st : St) (h : st.tunnel = false)
    (ho : o = false) :
    ensureConn o st = (none, 1) := by
  simp [ensureConn, h, ho]

/-- A successful ensureConnection always yields a state with a live
tunnel, leaving pool and timer untouched. -/
theorem ensureConn_some_shape (o : Bool) (st s1 : St) (a : Nat)
    (h : ensureConn o st = (some s1, a)) :
    s1 = ⟨true, st.pool, st.idleTimer⟩ := by
  obtain ⟨t, p, i⟩ := st
  cases t <;> cases o <;> simp [ensureConn] at h
  all_goals simp [h.1]

/-- A failed ensureConnection means no tunnel existed, the open failed and
one attempt was made. -/
theorem ensureConn_none_shape (o : Bool) (st : St) (a : Nat)
    (h : ensureConn o st = (none, a)) :
    st.tunnel = false ∧ o = false ∧ a = 1 := by
  obtain ⟨t, p, i⟩ := st
  cases t <;> cases o <;> simp [ensureConn] at h
  all_goals simp [h]

/-- Whenever the pool teardown does not reject (or there is no pool),
closeTunnel reports success and leaves the all-clear state, whatever the
listener and SSH connection teardown does. -/
theorem closeTunnelM_clean (cenv : CloseEnv) (st : St)
    (h : st.pool = false ∨ cenv.poolEndOk = true) :
    closeTunnelM cenv st = (Except.ok (), st0) := by
  obtain ⟨t, p, i⟩ := st
  obtain ⟨pe, tc⟩ := cenv
  simp only at h
  rcases h with h | h
  · subst h
    cases t <;> cases tc <;> cases pe <;>
      simp [closeTunnelM, dbCloseM, tunnelCloseBody, st0]
  · subst h
    cases t <;> cases tc <;> cases p <;>
      simp [closeTunnelM, dbCloseM, tunnelCloseBody, st0]

/-- When a pool exists and its end() rejects, closeTunnel propagates the
rejection; only the idle timer has been cleared. -/
theorem closeTunnelM_poolFail (cenv : CloseEnv) (st : St)
    (hp : st.pool = true) (he : cenv.poolEndOk = false) :
    closeTunnelM cenv st = (Except.error poolEndErr, ⟨st.tunnel, true, false⟩) := by
  obtain ⟨t, p, i⟩ := st
  obtain ⟨pe, tc⟩ := cenv
  simp only at hp he
  subst hp; subst he
  simp [closeTunnelM, dbCloseM]

/-- runQuery when no tunnel exists and the open fails: the tunnel error is
thrown before any query. -/
theorem runQueryM_noTunnel (sql : String) (env : QEnv) (st : St)
    (h : st.tunnel = false) (ho : env.openOk1 = false) :
    runQueryM sql env st = ⟨st, Except.error tunnelErr, [], 0, 0, 1⟩ := by
  simp [runQueryM, ensureConn_fail _ _ h ho]

/-- runQuery when the first attempt succeeds. -/
theorem runQueryM_ok (sql : String) (env : QEnv) (st s1 : St) (a : Nat)
    (v : List String)
    (h : ensureConn env.openOk1 st = (some s1, a)) (hq : env.q1 = Except.ok v) :
    runQueryM sql env st = ⟨⟨s1.tunnel, true, true⟩, Except.ok v, [sql], 1, 0, a⟩ := by
  simp [runQueryM, h, hq]

/-- runQuery when the first attempt fails non-transiently: rethrown with
no recovery. -/
theorem runQueryM_nontransient (sql : String) (env : QEnv) (st s1 : St)
    (a : Nat) (e : Err)
    (h : ensureConn env.openOk1 st = (some s1, a)) (hq : env.q1 = Except.error e)
    (ht : isTransientErr e = false) :
    runQueryM sql env st =
      ⟨⟨s1.tunnel, true, s1.idleTimer⟩, Except.error e, [sql], 1, 0, a⟩ := by
  simp [runQueryM, h, hq, ht]

/-- runQuery when the first attempt fails transiently and the recovery
teardown itself rejects: that rejection propagates, no retry occurs. -/
theorem runQueryM_transient_closeFail (sql : String) (env : QEnv) (st s1 : St)
    (a : Nat) (e : Err)
    (h : ensureConn env.openOk1 st = (some s1, a)) (hq : env.q1 = Except.error e)
    (ht : isTransientErr e = true) (hp : env.poolEndOk = false) :
    runQueryM sql env st =
      ⟨⟨s1.tunnel, true, false⟩, Except.error poolEndErr, [sql], 1, 1, a⟩ := by
  simp [runQueryM, h, hq, ht,
    closeTunnelM_poolFail ⟨env.poolEndOk, env.tunnelCloseOk⟩
      ⟨s1.tunnel, true, s1.idleTimer⟩ rfl hp]

/-- runQuery when the first attempt fails transiently, teardown succeeds
and the reopen fails: the tunnel error is thrown, no retry occurs. -/
theorem runQueryM_retry_openFail (sql : String) (env : QEnv) (st s1 : St)
    (a : Nat) (e : Err)
    (h : ensureConn env.openOk1 st = (some s1, a)) (hq : env.q1 = Except.error e)
    (ht : isTransientErr e = true) (hp : env.poolEndOk = true)
    (ho : env.openOk2 = false) :
    runQueryM sql env st = ⟨st0, Except.error tunnelErr, [sql], 1, 1, a + 1⟩ := by
  have hop := ensureConn_fail env.openOk2 ⟨false, false, false⟩ rfl ho
  simp [runQueryM, h, hq, ht,
    closeTunnelM_clean ⟨env.poolEndOk, env.tunnelCloseOk⟩
      ⟨s1.tunnel, true, s1.idleTimer⟩ (Or.inr hp),
    st0, hop]

/-- runQuery when the first attempt fails transiently, teardown succeeds
and the reopen succeeds: exactly one retry, whose outcome is returned or
rethrown. -/
theorem runQueryM_retry (sql : String) (env : QEnv) (st s1 : St)
    (a : Nat) (e : Err)
    (h : ensureConn env.openOk1 st = (some s1, a)) (hq : env.q1 = Except.error e)
    (ht : isTransientErr e = true) (hp : env.poolEndOk = true)
    (ho : env.openOk2 = true) :
    runQueryM sql env st =
      match env.q2 with
      | Except.ok v => ⟨⟨true, true, true⟩, Except.ok v, [sql, sql], 2, 1, a + 1⟩
      | Except.error e2 =>
        ⟨⟨true, true, false⟩, Except.error e2, [sql, sql], 2, 1, a + 1⟩ := by
  have hcl := closeTunnelM_clean ⟨env.poolEndOk, env.tunnelCloseOk⟩
    ⟨s1.tunnel, true, s1.idleTimer⟩ (Or.inr hp)
  have hop := ensureConn_open env.openOk2 ⟨false, false, false⟩ rfl ho
  rcases hq2 : env.q2 with e2 | v <;>
    simp [runQueryM, h, hq, ht, hcl, hop, hq2, st0]

/-- The SQL texts issued by one runQuery call are its query-call count
many copies of the same statement. -/
theorem runQueryM_sqls (sql : String) (env : QEnv) (st : St) :
    (runQueryM sql env st).sqls =
      List.replicate (runQueryM sql env st).queryCalls sql := by
  rcases h1 : ensureConn env.openOk1 st with ⟨_ | s1, a⟩
  · obtain ⟨hT, hO, hA⟩ := ensureConn_none_shape _ _ _ h1
    simp [runQueryM_noTunnel sql env st hT hO, List.replicate]
  · rcases hq : env.q1 with e | v
    · cases ht : isTransientErr e
      · simp [runQueryM_nontransient sql env st s1 a e h1 hq ht, List.replicate]
      · cases hp : env.poolEndOk
        · simp [runQueryM_transient_closeFail sql env st s1 a e h1 hq ht hp,
            List.replicate]
        · cases ho : env.openOk2
          · simp [runQueryM_retry_openFail sql env st s1 a e h1 hq ht hp ho,
              List.replicate]
          · rw [runQueryM_retry sql env st s1 a e h1 hq ht hp ho]
            rcases env.q2 with e2 | v <;> simp [List.replicate]
    · simp [runQueryM_ok sql env st s1 a v h1 hq, List.replicate]

/-- Attempt counts of one runQuery call: queryFn is invoked at most twice
and closeTunnel at most once, in every environment whatsoever. -/
theorem runQueryM_counts (sql : String) (env : QEnv) (st : St) :
    (runQueryM sql env st).queryCalls ≤ 2 ∧ (runQueryM sql env st).teardowns ≤ 1 := by
  rcases h1 : ensureConn env.openOk1 st with ⟨_ | s1, a⟩
  · obtain ⟨hT, hO, _⟩ := ensureConn_none_shape _ _ _ h1
    simp [runQueryM_noTunnel sql env st hT hO]
  · rcases hq : env.q1 with e | v
    · cases ht : isTransientErr e
      · simp [runQueryM_nontransient sql env st s1 a e h1 hq ht]
      · cases hp : env.poolEndOk
        · simp [runQueryM_transient_closeFail sql env st s1 a e h1 hq ht hp]
        · cases ho : env.openOk2
          · simp [runQueryM_retry_openFail sql env st s1 a e h1 hq ht hp ho]
          · rw [runQueryM_retry sql env st s1 a e h1 hq ht hp ho]
            rcases env.q2 with e2 | v2 <;> simp
    · simp [runQueryM_ok sql env st s1 a v h1 hq]

/-- A successful runQuery always ends in the fully live state: tunnel
open, pool created, idle timer armed. -/
theorem runQueryM_ok_state (sql : String) (env : QEnv) (st : St)
    (v : List String) (h : (runQueryM sql env st).out = Except.ok v) :
    (runQueryM sql env st).st = stReady := by
  rcases h1 : ensureConn env.openOk1 st with ⟨_ | s1, a⟩
  · obtain ⟨hT, hO, _⟩ := ensureConn_none_shape _ _ _ h1
    rw [runQueryM_noTunnel sql env st hT hO] at h
    exact absurd h (by simp)
  · rcases hq : env.q1 with e | v1
    · cases ht : isTransientErr e
      · rw [runQueryM_nontransient sql env st s1 a e h1 hq ht] at h
        exact absurd h (by simp)
      · cases hp : env.poolEndOk
        · rw [runQueryM_transient_closeFail sql env st s1 a e h1 hq ht hp] at h
          exact absurd h (by simp)
        · cases ho : env.openOk2
          · rw [runQueryM_retry_openFail sql env st s1 a e h1 hq ht hp ho] at h
            exact absurd h (by simp)
          · rw [runQueryM_retry sql env st s1 a e h1 hq ht hp ho] at h ⊢
            rcases hq2 : env.q2 with e2 | v2
            · rw [hq2] at h
              exact Except.noConfusion h
            · rfl
    · have hs := ensureConn_some_shape _ _ _ _ h1
      rw [runQueryM_ok sql env st s1 a v1 h1 hq, hs]
      simp [stReady]

/-- An operation arriving with no tunnel always performs at least one
createTunnel attempt: nothing is reused from an empty state. -/
theorem runQueryM_opens_from_idle (sql : String) (env : QEnv) (st : St)
    (h : st.tunnel = false) :
    1 ≤ (runQueryM sql env st).openAttempts := by
  cases ho1 : env.openOk1
  · simp [runQueryM_noTunnel sql env st h ho1]
  · have h1 := ensureConn_open env.openOk1 st h ho1
    rcases hq : env.q1 with e | v
    · cases ht : isTransientErr e
      · simp [runQueryM_nontransient sql env st _ 1 e h1 hq ht]
      · cases hp : env.poolEndOk
        · simp [runQueryM_transient_closeFail sql env st _ 1 e h1 hq ht hp]
        · cases ho : env.openOk2
          · simp [runQueryM_retry_openFail sql env st _ 1 e h1 hq ht hp ho]
          · rw [runQueryM_retry sql env st _ 1 e h1 hq ht hp ho]
            rcases env.q2 with e2 | v2 <;> simp
    · simp [runQueryM_ok sql env st _ 1 v h1 hq]

/-- runQuery preserves the property that a live pool implies a live
tunnel. -/
theorem runQueryM_st_inv (sql : String) (env : QEnv) (st : St)
    (h : st.pool = true → st.tunnel = true) :
    (runQueryM sql env st).st.pool = true →
      (runQueryM sql env st).st.tunnel = true := by
  rcases h1 : ensureConn env.openOk1 st with ⟨_ | s1, a⟩
  · obtain ⟨hT, hO, _⟩ := ensureConn_none_shape _ _ _ h1
    rw [runQueryM_noTunnel sql env st hT hO]
    exact h
  · have hs := ensureConn_some_shape _ _ _ _ h1
    rcases hq : env.q1 with e | v
    · cases ht : isTransientErr e
      · rw [runQueryM_nontransient sql env st s1 a e h1 hq ht, hs]
        intro _; rfl
      · cases hp : env.poolEndOk
        · rw [runQueryM_transient_closeFail sql env st s1 a e h1 hq ht hp, hs]
          intro _; rfl
        · cases ho : env.openOk2
          · rw [runQueryM_retry_openFail sql env st s1 a e h1 hq ht hp ho]
            simp [st0]
          · rw [runQueryM_retry sql env st s1 a e h1 hq ht hp ho]
            rcases env.q2 with e2 | v2 <;> (intro _; rfl)
    · rw [runQueryM_ok sql env st s1 a v h1 hq, hs]
      intro _; rfl

/-- closeTunnel preserves the property that a live pool implies a live
tunnel. -/
theorem closeTunnelM_st_inv (cenv : CloseEnv) (st : St)
    (h : st.pool = true → st.tunnel = true) :
    (closeTunnelM cenv st).2.pool = true →
      (closeTunnelM cenv st).2.tunnel = true := by
  cases hp : st.pool
  · rw [closeTunnelM_clean cenv st (Or.inl hp)]
    simp [st0]
  · cases hpe : cenv.poolEndOk
    · rw [closeTunnelM_poolFail cenv st hp hpe]
      intro _; exact h hp
    · rw [closeTunnelM_clean cenv st (Or.inr hpe)]
      simp [st0]

/-- connect_db preserves the property that a live pool implies a live
tunnel. -/
theorem connectDbM_st_inv (env : QEnv) (st : St)
    (h : st.pool = true → st.tunnel = true) :
    (connectDbM env st).st.pool = true → (connectDbM env st).st.tunnel = true := by
  rcases h1 : ensureConn env.openOk1 st with ⟨_ | s1, a⟩
  · simp only [connectDbM, h1]
    exact h
  · have hs := ensureConn_some_shape _ _ _ _ h1
    simp only [connectDbM, h1, hs]
    intro _; trivial

/-- Every event other than the unsolicited SSH close preserves the
property that a live pool implies a live tunnel. -/
theorem step_preserves_pool_tunnel (st : St) (a : Act) (ha : a ≠ Act.sshClosed)
    (h : st.pool = true → st.tunnel = true) :
    (step st a).pool = true → (step st a).tunnel = true := by
  cases a with
  | tool args env =>
    cases args with
    | readQuery sql =>
      cases hv : isReadOnlyQuery sql
      · have hstep : step st (Act.tool (ToolArgs.readQuery sql) env) = st := by
          simp [step, handleToolInner, hv]
        rw [hstep]
        exact h
      · have hstep : step st (Act.tool (ToolArgs.readQuery sql) env) =
            (runQueryM sql env st).st := by
          simp [step, handleToolInner, hv, liftRun]
        rw [hstep]
        exact runQueryM_st_inv sql env st h
    | listTables =>
      simp only [step, handleToolInner, liftRun]
      exact runQueryM_st_inv _ env st h
    | describeTable t =>
      simp only [step, handleToolInner, liftRun]
      exact runQueryM_st_inv _ env st h
    | connectDb =>
      simp only [step, handleToolInner]
      exact connectDbM_st_inv env st h
    | unknown n =>
      simp only [step, handleToolInner]
      exact h
  | idleFire cenv =>
    cases hi : st.idleTimer
    · simp only [step, hi, Bool.false_eq_true, if_false]
      exact h
    · simp only [step, hi, if_true]
      exact closeTunnelM_st_inv cenv st h
  | sshClosed => exact absurd rfl ha
  | shutdown cenv =>
    simp only [step]
    exact closeTunnelM_st_inv cenv st h

/-- C7: sanitizeTableName keeps exactly the characters in [A-Za-z0-9_],
in order (it is the filter on that class), it is idempotent, and the
describe_table branch embeds the sanitized name into the DESCRIBE
statement it issues (every issued statement is DESCRIBE followed by the
sanitized name). -/
theorem describe_table_sanitizes (t : String) (env : QEnv) (st : St) :
    (sanitizeTableName t).toList = t.toList.filter isWordChar ∧
    sanitizeTableName (sanitizeTableName t) = sanitizeTableName t ∧
    (handleToolInner (ToolArgs.describeTable t) env st).sqls =
      List.replicate (handleToolInner (ToolArgs.describeTable t) env st).queryCalls
        ("DESCRIBE " ++ sanitizeTableName t) := by
  refine ⟨?_, ?_, ?_⟩
  · simp [sanitizeTableName, sanitizeChars_eq_filter]
  · simp [sanitizeTableName, sanitizeChars_idem]
  · simp [handleToolInner, liftRun, runQueryM_sqls]

/-- C2 (amended): every SQL string whose trimmed, lowercased text does not
start with select, show or describe is rejected by read_query with the
validation error, before any I/O: no query is issued, no open attempt is
made, and the state is unchanged. -/
theorem read_query_rejected_before_io (sql : String) (env : QEnv) (st : St)
    (h : isReadOnlyQuery sql = false) :
    handleTool (ToolArgs.readQuery sql) env st =
      (Payload.errText "Error: Only SELECT, SHOW, and DESCRIBE queries are allowed", st) ∧
    (handleToolInner (ToolArgs.readQuery sql) env st).queryCalls = 0 ∧
    (handleToolInner (ToolArgs.readQuery sql) env st).openAttempts = 0 ∧
    (handleToolInner (ToolArgs.readQuery sql) env st).sqls = [] ∧
    (handleToolInner (ToolArgs.readQuery sql) env st).st = st := by
  simp [handleTool, handleToolInner, h, readOnlyErr]

/-- C2 witness: a DROP statement is rejected with the validation error and
no I/O occurs. -/
theorem read_query_rejected_before_io_witness :
    handleTool (ToolArgs.readQuery "DROP TABLE x") envAllOk st0 =
      (Payload.errText "Error: Only SELECT, SHOW, and DESCRIBE queries are allowed", st0) ∧
    (handleToolInner (ToolArgs.readQuery "DROP TABLE x") envAllOk st0).queryCalls = 0 ∧
    (handleToolInner (ToolArgs.readQuery "DROP TABLE x") envAllOk st0).openAttempts = 0 ∧
    (handleToolInner (ToolArgs.readQuery "DROP TABLE x") envAllOk st0).sqls = [] ∧
    (handleToolInner (ToolArgs.readQuery "DROP TABLE x") envAllOk st0).st = st0 :=
  read_query_rejected_before_io "DROP TABLE x" envAllOk st0 (by decide)

/-- C2 counterexample: the string SHOWTIME tables has leading keyword
showtime, which is none of select, show, describe, yet read_query does not
reject it: a query is issued to the session and a tunnel-open attempt is
made.  The source tests string prefixes, not the leading keyword. -/
theorem read_query_accepts_non_keyword :
    (¬ leadingKeyword "SHOWTIME tables" = "select".toList) ∧
    (¬ leadingKeyword "SHOWTIME tables" = "show".toList) ∧
    (¬ leadingKeyword "SHOWTIME tables" = "describe".toList) ∧
    isReadOnlyQuery "SHOWTIME tables" = true ∧
    (handleToolInner (ToolArgs.readQuery "SHOWTIME tables") envAllOk st0).queryCalls = 1 ∧
    (handleToolInner (ToolArgs.readQuery "SHOWTIME tables") envAllOk st0).openAttempts = 1 ∧
    (handleToolInner (ToolArgs.readQuery "SHOWTIME tables") envAllOk st0).out =
      Except.ok (Payload.rowsOut []) := by
  decide

/-- C4 counterexample: when pool.end() rejects during teardown, closeTunnel
propagates the error to its caller and the tunnel handle is not cleared
(the await of dbClient.close is outside the try block). -/
theorem closeTunnel_pool_error_propagates :
    (closeTunnelM ⟨false, true⟩ stReady).1 = Except.error poolEndErr ∧
    (closeTunnelM ⟨false, true⟩ stReady).2.tunnel = true ∧
    (closeTunnelM ⟨false, true⟩ stReady).2.pool = true := by
  decide

/-- C4 (amended): provided the pool teardown does not reject (or no pool
exists), closeTunnel never propagates an error — in particular any error
thrown while closing the listener and SSH connection is suppressed — and
afterwards the handle, pool and timer are all cleared; but an error from
pool.end() itself propagates (shown separately at a concrete input). -/
theorem closeTunnel_suppresses_teardown_errors (cenv : CloseEnv) (st : St)
    (h : st.pool = false ∨ cenv.poolEndOk = true) :
    (closeTunnelM cenv st).1 = Except.ok () ∧
    (closeTunnelM cenv st).2 = st0 := by
  obtain ⟨t, p, i⟩ := st
  obtain ⟨pe, tc⟩ := cenv
  rcases h with h | h <;> simp only at h <;> subst h <;>
    cases t <;> cases tc <;>
    simp [closeTunnelM, dbCloseM, tunnelCloseBody, st0] <;>
    cases p <;> simp [closeTunnelM, dbCloseM, tunnelCloseBody, st0]

/-- C4 witness: with a live pool whose end() resolves and a tunnel whose
close throws, closeTunnel reports success and clears everything. -/
theorem closeTunnel_suppresses_teardown_errors_witness :
    (closeTunnelM ⟨true, false⟩ stReady).1 = Except.ok () ∧
    (closeTunnelM ⟨true, false⟩ stReady).2 = st0 :=
  closeTunnel_suppresses_teardown_errors ⟨true, false⟩ stReady (Or.inr rfl)

/-- C8 counterexample: with no tunnel open, the schedule in which both
callers run their sshTunnel check before either createTunnel resolves
performs two open attempts, refuting the exactly-one-attempt property. -/
theorem concurrent_open_two_attempts :
    (runSched [true, false, true, false]).attempts = 2 ∧
    (runSched [true, false, true, false]).p1 = Phase.finished ∧
    (runSched [true, false, true, false]).p2 = Phase.finished ∧
    (runSched [true, false, true, false]).tunnel = true := by
  decide

/-- C8 (amended): open attempts are deduplicated only against a completed
open — once the handle is installed no caller performs a further attempt,
and a second caller checking after the first open completed observes one
total attempt — but two callers both checking while no open has completed
each initiate an attempt; nothing serializes in-flight opens. -/
theorem open_dedup_only_after_completion (s : OpenSt) (c : Bool)
    (h : s.tunnel = true) :
    (openStep s c).attempts = s.attempts ∧
    (runSched [true, true, false]).attempts = 1 ∧
    (runSched [true, true, false]).p2 = Phase.finished ∧
    (runSched [true, false, true, false]).attempts = 2 := by
  refine ⟨?_, by decide, by decide, by decide⟩
  obtain ⟨tn, a, p1, p2⟩ := s
  simp only at h
  subst h
  cases c <;> cases p1 <;> cases p2 <;> rfl

/-- C8 witness: once the handle exists a pre-check caller adds no attempt. -/
theorem open_dedup_only_after_completion_witness :
    (openStep ⟨true, 1, Phase.preCheck, Phase.preCheck⟩ false).attempts =
      (⟨true, 1, Phase.preCheck, Phase.preCheck⟩ : OpenSt).attempts ∧
    (runSched [true, true, false]).attempts = 1 ∧
    (runSched [true, true, false]).p2 = Phase.finished ∧
    (runSched [true, false, true, false]).attempts = 2 :=
  open_dedup_only_after_completion ⟨true, 1, Phase.preCheck, Phase.preCheck⟩ false rfl

/-- C1: a query failing with a transient-connection error triggers exactly
one teardown-reopen-retry cycle: one closeTunnel teardown, one reopen
attempt, two queryFn invocations in total, and the outcome of the retry —
success or second failure — is exactly what the caller observes; moreover
in every environment whatsoever no third attempt is ever made. -/
theorem runQuery_single_retry (sql : String) (env : QEnv) (st : St) (e : Err)
    (hT : st.tunnel = true) (hq : env.q1 = Except.error e)
    (ht : isTransientErr e = true) (hp : env.poolEndOk = true)
    (ho : env.openOk2 = true) :
    (runQueryM sql env st).teardowns = 1 ∧
    (runQueryM sql env st).openAttempts = 1 ∧
    (runQueryM sql env st).queryCalls = 2 ∧
    (runQueryM sql env st).out = env.q2 ∧
    (∀ sql2 env2 st2, (runQueryM sql2 env2 st2).queryCalls ≤ 2 ∧
      (runQueryM sql2 env2 st2).teardowns ≤ 1) := by
  have h1 := ensureConn_tunnel env.openOk1 st hT
  have hr := runQueryM_retry sql env st st 0 e h1 hq ht hp ho
  refine ⟨?_, ?_, ?_, ?_, fun sql2 env2 st2 => runQueryM_counts sql2 env2 st2⟩ <;>
    rw [hr] <;> rcases hq2 : env.q2 with e2 | v2 <;> simp [hq2]

/-- C1 witness: from a live state, with both attempts failing transiently,
there is one teardown, one reopen, two attempts, and the second error is
surfaced. -/
theorem runQuery_single_retry_witness :
    (runQueryM "SELECT 1" envTransientTwice stReady).teardowns = 1 ∧
    (runQueryM "SELECT 1" envTransientTwice stReady).openAttempts = 1 ∧
    (runQueryM "SELECT 1" envTransientTwice stReady).queryCalls = 2 ∧
    (runQueryM "SELECT 1" envTransientTwice stReady).out =
      Except.error transientResetErr := by
  have H := runQuery_single_retry "SELECT 1" envTransientTwice stReady
    transientResetErr rfl rfl (by decide) rfl rfl
  exact ⟨H.1, H.2.1, H.2.2.1, H.2.2.2.1⟩

/-- C6: a query failing with a non-transient error is surfaced immediately:
one queryFn invocation, no teardown, no open attempt, and the state —
tunnel handle, pool and idle timer — is exactly as before the call. -/
theorem runQuery_nontransient_no_teardown (sql : String) (env : QEnv)
    (st : St) (e : Err)
    (hT : st.tunnel = true) (hP : st.pool = true)
    (hq : env.q1 = Except.error e) (ht : isTransientErr e = false) :
    (runQueryM sql env st).out = Except.error e ∧
    (runQueryM sql env st).queryCalls = 1 ∧
    (runQueryM sql env st).teardowns = 0 ∧
    (runQueryM sql env st).openAttempts = 0 ∧
    (runQueryM sql env st).st = st := by
  have h1 := ensureConn_tunnel env.openOk1 st hT
  rw [runQueryM_nontransient sql env st st 0 e h1 hq ht]
  obtain ⟨t, p, i⟩ := st
  simp only at hT hP
  subst hT; subst hP
  simp

/-- C6 witness: a syntax error from a live state is rethrown with the
state untouched. -/
theorem runQuery_nontransient_no_teardown_witness :
    (runQueryM "SELECT x FROM" envSyntaxErr stReady).out = Except.error syntaxErr ∧
    (runQueryM "SELECT x FROM" envSyntaxErr stReady).queryCalls = 1 ∧
    (runQueryM "SELECT x FROM" envSyntaxErr stReady).teardowns = 0 ∧
    (runQueryM "SELECT x FROM" envSyntaxErr stReady).openAttempts = 0 ∧
    (runQueryM "SELECT x FROM" envSyntaxErr stReady).st = stReady :=
  runQuery_nontransient_no_teardown "SELECT x FROM" envSyntaxErr stReady
    syntaxErr rfl rfl rfl (by decide)

/-- C5: after any successful operation the tunnel is live and the idle
timer armed; when the timer fires (with a clean pool teardown) tunnel,
pool and timer are all cleared in one teardown, a second firing is a
no-op since the timer is gone, any subsequent operation must perform a
fresh open attempt, and the idle delay is five minutes in
milliseconds. -/
theorem idle_timeout_teardown_once (sql : String) (env : QEnv) (st : St)
    (v : List String) (c : CloseEnv)
    (hok : (runQueryM sql env st).out = Except.ok v) (hc : c.poolEndOk = true) :
    (runQueryM sql env st).st.tunnel = true ∧
    (runQueryM sql env st).st.idleTimer = true ∧
    step (runQueryM sql env st).st (Act.idleFire c) = st0 ∧
    step st0 (Act.idleFire c) = st0 ∧
    (∀ sql2 env2, 1 ≤ (runQueryM sql2 env2 st0).openAttempts) ∧
    IDLE_TIMEOUT_MS = 300000 := by
  have hst := runQueryM_ok_state sql env st v hok
  rw [hst]
  refine ⟨rfl, rfl, ?_, rfl, ?_, rfl⟩
  · simp [step, stReady, closeTunnelM_clean c ⟨true, true, true⟩ (Or.inr hc)]
  · intro sql2 env2
    exact runQueryM_opens_from_idle sql2 env2 st0 rfl

/-- C5 witness: a successful SHOW TABLES from the idle state arms the
timer; firing it returns to the all-clear state and a second firing does
nothing. -/
theorem idle_timeout_teardown_once_witness :
    (runQueryM "SHOW TABLES" envAllOk st0).st.tunnel = true ∧
    (runQueryM "SHOW TABLES" envAllOk st0).st.idleTimer = true ∧
    step (runQueryM "SHOW TABLES" envAllOk st0).st (Act.idleFire ⟨true, true⟩) = st0 ∧
    step st0 (Act.idleFire ⟨true, true⟩) = st0 ∧
    IDLE_TIMEOUT_MS = 300000 := by
  have H := idle_timeout_teardown_once "SHOW TABLES" envAllOk st0 [] ⟨true, true⟩
    rfl rfl
  exact ⟨H.1, H.2.1, H.2.2.1, H.2.2.2.1, H.2.2.2.2.2⟩

/-- C9: the handler never throws past the invocation boundary: whatever
the tool name, arguments, state and environment, either the switch
returned a payload and that payload is the response, or it threw and the
response is the textual error message built from the thrown error. -/
theorem handler_always_returns_payload (args : ToolArgs) (env : QEnv) (st : St) :
    (∃ p, (handleToolInner args env st).out = Except.ok p ∧
      handleTool args env st = (p, (handleToolInner args env st).st)) ∨
    (∃ e, (handleToolInner args env st).out = Except.error e ∧
      handleTool args env st =
        (Payload.errText ("Error: " ++ e.msg), (handleToolInner args env st).st)) := by
  rcases hout : (handleToolInner args env st).out with e | p
  · right
    exact ⟨e, rfl, by simp [handleTool, hout]⟩
  · left
    exact ⟨p, rfl, by simp [handleTool, hout]⟩

/-- C10: when the tunnel is live (or opens), a failing SELECT 1 health
probe does not produce an error payload: connect_db reports success-shaped
output with connected false while tunnel reads open — the two fields
disagree. -/
theorem connect_db_health_mismatch (env : QEnv) (st : St) (e : Err)
    (hOpen : st.tunnel = true ∨ env.openOk1 = true)
    (hq : env.q1 = Except.error e) :
    handleTool ToolArgs.connectDb env st = (Payload.connOut false "open", stReady) := by
  cases htn : st.tunnel
  · rcases hOpen with h | h
    · rw [htn] at h
      exact absurd h (by simp)
    · have h1 := ensureConn_open env.openOk1 st htn h
      simp [handleTool, handleToolInner, connectDbM, h1, hq, stReady]
  · have h1 := ensureConn_tunnel env.openOk1 st htn
    simp [handleTool, handleToolInner, connectDbM, h1, hq, stReady, htn]

/-- C10 witness: access denied on the probe from the idle state yields
connected false with tunnel open. -/
theorem connect_db_health_mismatch_witness :
    handleTool ToolArgs.connectDb envSelect1Fails st0 =
      (Payload.connOut false "open", stReady) :=
  connect_db_health_mismatch envSelect1Fails st0
    ⟨"ER_ACCESS_DENIED", "Access denied"⟩ (Or.inr rfl) rfl

/-- C3 counterexample: after connect_db opens the tunnel and creates the
pool, the unsolicited SSH close event clears only the tunnel handle: the
reached state has a live pool and no tunnel, because the close/error
handlers of the SSH connection never touch the pool. -/
theorem pool_outlives_tunnel :
    run st0 [Act.tool ToolArgs.connectDb envAllOk, Act.sshClosed] =
      ⟨false, true, true⟩ ∧
    (St.mk false true true).pool = true ∧
    (St.mk false true true).tunnel = false := by
  decide

/-- C3 (amended): along every event sequence that contains no unsolicited
SSH close/error event, a live pool implies a live tunnel — deliberate
teardown always clears both together — but the unsolicited-close handler
clears only the handle, so the invariant can be broken by that one
event. -/
theorem pool_requires_tunnel_no_ssh_drop (acts : List Act)
    (h : Act.sshClosed ∉ acts) :
    (run st0 acts).pool = true → (run st0 acts).tunnel = true := by
  have key : ∀ l : List Act, ∀ st : St, Act.sshClosed ∉ l →
      (st.pool = true → st.tunnel = true) →
      ((run st l).pool = true → (run st l).tunnel = true) := by
    intro l
    induction l with
    | nil => intro st _ hst; exact hst
    | cons a tl ih =>
      intro st hmem hst
      have ha : a ≠ Act.sshClosed := by
        intro he
        subst he
        exact hmem (List.mem_cons_self _ _)
      have hmem2 : Act.sshClosed ∉ tl := fun hm => hmem (List.mem_cons_of_mem _ hm)
      exact ih (step st a) hmem2 (step_preserves_pool_tunnel st a ha hst)
  exact key acts st0 h (by decide)

/-- C3 witness: a trace with one connect_db and no SSH drop ends with the
tunnel live. -/
theorem pool_requires_tunnel_no_ssh_drop_witness :
    (run st0 [Act.tool ToolArgs.connectDb envAllOk]).tunnel = true :=
  pool_requires_tunnel_no_ssh_drop [Act.tool ToolArgs.connectDb envAllOk]
    (by decide) (by decide)

end MysqlMcp
